import Mathlib

/-!
Verification development for the elb2loggly service (`src/app.py`): an SNS-driven
shipper of ELB access logs to Loggly. We embed the retry scheduler (`worker`),
the batch accumulator of `download_and_process`, the per-row transformation
(compound-field splitting, integer coercion, the `apache_combined_log`
rendering with its strptime timestamp parse, and the JSON-serialized structured
half), and `upload_to_loggly`, and prove the specification's claims about them.

Time is modelled in whole seconds as `Nat` (the code uses `datetime`; all the
claims are about second-granularity arithmetic).
-/

namespace Elb2Loggly

/-- `MAX_TRIES = os.environ.get('MAX_TRIES', 15)` — the default, 15. -/
def MAX_TRIES : Nat := 15

/-- `LOGGLY_MAX_SIZE = int(os.environ.get('LOGGLY_MAX_SIZE', 4*1024*1024))` — the default. -/
def LOGGLY_MAX_SIZE : Nat := 4 * 1024 * 1024

/-- `Task = namedtuple('Task', ['url', 'not_before', 'tries'])`. -/
structure Task where
  url : String
  not_before : Nat
  tries : Nat
deriving DecidableEq, Repr

/-- What one iteration of the `worker` loop does with the task it dequeued:
whether the pipeline was executed and succeeded, whether the task was
re-enqueued (`q.put`), whether it was dropped with the "Gave up" error log,
and how long the iteration sleeps at the end (`time.sleep(10)`, which the
`continue` on the success path skips). -/
structure StepResult where
  requeued : Option Task
  executed : Bool
  succeeded : Bool
  abandoned : Bool
  sleepSeconds : Nat
deriving DecidableEq, Repr

/-- One iteration of the `worker` loop body on a dequeued task, at current time
`now`, where `pipelineOk` tells whether `download_and_process(url)` returns
normally (`true`) or raises (`false`).  Mirrors `src/app.py` lines 170-194:
if `not_before <= now` the attempt counter is incremented and the pipeline
runs — on success `continue` skips both the re-enqueue decision and the
sleep; on an exception `not_before` is reset to `now + 2**tries`.  A task
whose `not_before` is in the future falls through with `tries` and
`not_before` untouched.  Then `q.put` iff `tries <= MAX_TRIES`, else the
task is abandoned with an error log; finally `time.sleep(10)`. -/
def workerStep (now : Nat) (t : Task) (pipelineOk : Bool) : StepResult :=
  if t.not_before ≤ now then
    let tries := t.tries + 1
    if pipelineOk then
      { requeued := none, executed := true, succeeded := true,
        abandoned := false, sleepSeconds := 0 }
    else
      let nb := now + 2 ^ tries
      if tries ≤ MAX_TRIES then
        { requeued := some { url := t.url, not_before := nb, tries := tries },
          executed := true, succeeded := false, abandoned := false, sleepSeconds := 10 }
      else
        { requeued := none, executed := true, succeeded := false,
          abandoned := true, sleepSeconds := 10 }
  else
    if t.tries ≤ MAX_TRIES then
      { requeued := some t, executed := false, succeeded := false,
        abandoned := false, sleepSeconds := 10 }
    else
      { requeued := none, executed := false, succeeded := false,
        abandoned := true, sleepSeconds := 10 }

/-- `q.put(Task(url, datetime.datetime.now(), 0))` — how the SNS intake
enqueues a fresh task (`src/app.py` line 234). -/
def enqueueTask (url : String) (now : Nat) : Task :=
  { url := url, not_before := now, tries := 0 }

/-! ### Record transformer: row splitting and coercion -/

/-- A value held in a row's dict after the `processors` coercion pass:
either a Python `int`, the original string, or `None` (csv `restval` for a
missing trailing field). -/
inductive Value where
  | int (i : Int)
  | str (s : String)
  | null
deriving DecidableEq, Repr

/-- One row as produced by `csv.DictReader(..., fieldnames=header, restval=None)`:
the 15 `header` fields in order, each `None` when the line has fewer fields. -/
structure RawRow where
  timestamp : Option String
  elb : Option String
  client : Option String
  backend : Option String
  request_processing_time : Option String
  backend_processing_time : Option String
  response_processing_time : Option String
  elb_status_code : Option String
  backend_status_code : Option String
  received_bytes : Option String
  sent_bytes : Option String
  request : Option String
  user_agent : Option String
  ssl_cipher : Option String
  ssl_protocol : Option String
deriving DecidableEq, Repr

/-- The row dict after the compound-field splits and coercions of
`download_and_process` (lines 141-149): `client` replaced by
`client_ip`/`client_port`, `request` by `http_method`/`request_uri`/
`http_version`, and the four `processors` fields best-effort coerced. -/
structure Row where
  timestamp : Option String
  elb : Option String
  backend : Option String
  request_processing_time : Option String
  backend_processing_time : Option String
  response_processing_time : Option String
  elb_status_code : Value
  backend_status_code : Value
  received_bytes : Value
  sent_bytes : Value
  user_agent : Option String
  ssl_cipher : Option String
  ssl_protocol : Option String
  client_ip : String
  client_port : String
  http_method : String
  request_uri : String
  http_version : String
deriving DecidableEq, Repr

/-- Python's `str.split(sep)` for a single-character separator: split at every
occurrence, keeping empty parts (`"a::b".split(':') == ['a', '', 'b']`). -/
def splitOnChar (sep : Char) : List Char → List (List Char)
  | [] => [[]]
  | x :: xs =>
    let r := splitOnChar sep xs
    if x = sep then [] :: r
    else
      match r with
      | [] => [[x]]
      | g :: gs => (x :: g) :: gs

/-- `s.split(sep)` on strings (single-character separator). -/
def pySplit (sep : Char) (s : String) : List String :=
  (splitOnChar sep s.data).map (fun l => String.mk l)

/-- `row['client_ip'], row['client_port'] = row.pop('client').split(':')` —
the 2-tuple unpacking raises `ValueError` unless the split yields exactly
two parts, i.e. unless the client contains exactly one colon. -/
def splitClient (s : String) : Option (String × String) :=
  match pySplit ':' s with
  | [ip, port] => some (ip, port)
  | _ => none

/-- `row['http_method'], row['request_uri'], row['http_version'] =
row.pop('request').split(' ')` — requires exactly three space-separated
parts. -/
def splitRequest (s : String) : Option (String × String × String) :=
  match pySplit ' ' s with
  | [m, u, v] => some (m, u, v)
  | _ => none

/-- Modelled from the spec: the spec's reading of the client split, "client →
ip/port via the last colon" (i.e. `rsplit(':', 1)`), failing only when there
is no colon at all.  Stated to compare against the source's `splitClient`. -/
def splitAtLastColon (s : String) : Option (String × String) :=
  if s.data.contains ':' then
    let after := (s.data.reverse.takeWhile (fun c => c ≠ ':')).reverse
    let before := s.data.take (s.data.length - after.length - 1)
    some (String.mk before, String.mk after)
  else none

/-- `str.strip()`-like trimming of surrounding whitespace, char-level. -/
def trimChars (cs : List Char) : List Char :=
  ((cs.dropWhile Char.isWhitespace).reverse.dropWhile Char.isWhitespace).reverse

/-- Fold a run of decimal digit characters into the number they denote. -/
def digitsToNat (ds : List Char) : Nat :=
  ds.foldl (fun a c => a * 10 + (c.toNat - 48)) 0

/-- Python's `int(s)` on a string: surrounding whitespace stripped, optional
sign, then a non-empty run of decimal digits; anything else raises
`ValueError` (`none`).  (The digit-grouping underscores Python 3.6 accepts
are not modelled; no claim depends on them.) -/
def pyInt? (s : String) : Option Int :=
  match trimChars s.data with
  | [] => none
  | '-' :: ds =>
    if ds ≠ [] ∧ ds.all Char.isDigit then some (-(digitsToNat ds : Int)) else none
  | '+' :: ds =>
    if ds ≠ [] ∧ ds.all Char.isDigit then some ((digitsToNat ds : Int)) else none
  | ds =>
    if ds ≠ [] ∧ ds.all Char.isDigit then some ((digitsToNat ds : Int)) else none

/-- The `processors` pass on one field:
`try: row[field] = int(row[field]) except Exception: pass`.  A missing field
(`None`) raises `TypeError`, a non-numeric string raises `ValueError`; both
are swallowed and the original value is kept. -/
def coerceField (v : Option String) : Value :=
  match v with
  | none => Value.null
  | some s =>
    match pyInt? s with
    | some i => Value.int i
    | none => Value.str s

/-- The splitting and coercion prefix of the row loop (`src/app.py` lines
140-149).  `none` means an uncaught exception: `client`/`request` absent
(`None.split` raises `AttributeError`) or their split not unpacking into
exactly 2 resp. 3 names (`ValueError`). -/
def parseRow (r : RawRow) : Option Row := do
  let client ← r.client
  let (ip, port) ← splitClient client
  let req ← r.request
  let (m, u, v) ← splitRequest req
  some
    { timestamp := r.timestamp
      elb := r.elb
      backend := r.backend
      request_processing_time := r.request_processing_time
      backend_processing_time := r.backend_processing_time
      response_processing_time := r.response_processing_time
      elb_status_code := coerceField r.elb_status_code
      backend_status_code := coerceField r.backend_status_code
      received_bytes := coerceField r.received_bytes
      sent_bytes := coerceField r.sent_bytes
      user_agent := r.user_agent
      ssl_cipher := r.ssl_cipher
      ssl_protocol := r.ssl_protocol
      client_ip := ip
      client_port := port
      http_method := m
      request_uri := u
      http_version := v }

/-! ### Decimal rendering (`str(n)` / `'{}'.format(n)` / `json.dumps(n)`) -/

/-- The character of the decimal digit `d`. -/
def digitChar (d : Nat) : Char := Char.ofNat (48 + d)

/-- Most-significant-first decimal digits of `n` (empty for `0`); the fuel
argument bounds the digit count, any fuel `≥ n` is enough. -/
def renderNatAux : Nat → Nat → List Char
  | 0, _ => []
  | fuel + 1, n => if n = 0 then [] else renderNatAux fuel (n / 10) ++ [digitChar (n % 10)]

/-- The decimal digit characters of `n` (most significant first). -/
def renderNatChars (n : Nat) : List Char := renderNatAux n n

/-- Python's decimal rendering of a non-negative integer. -/
def renderNat (n : Nat) : String :=
  if n = 0 then "0" else String.mk (renderNatChars n)

/-- Python's decimal rendering of an `int`. -/
def renderInt (i : Int) : String :=
  if i < 0 then "-" ++ renderNat i.natAbs else renderNat i.natAbs

/-! ### `datetime.datetime.strptime(.., "%Y-%m-%dT%H:%M:%S.%fZ")` -/

/-- The fields of a `datetime.datetime` as built by `strptime`. -/
structure PyDateTime where
  year : Nat
  month : Nat
  day : Nat
  hour : Nat
  minute : Nat
  second : Nat
  microsecond : Nat
deriving DecidableEq, Repr

/-- Take up to `k` leading decimal-digit characters. -/
def takeDigits : Nat → List Char → List Char × List Char
  | 0, cs => ([], cs)
  | _ + 1, [] => ([], [])
  | k + 1, c :: cs =>
    if c.isDigit then
      let (ds, rest) := takeDigits k cs
      (c :: ds, rest)
    else ([], c :: cs)

/-- Parse one numeric `strptime` directive of maximum width `maxW`; returns
the value, the number of digits consumed, and the rest of the input. -/
def parseField (maxW : Nat) (cs : List Char) : Option (Nat × Nat × List Char) :=
  match takeDigits maxW cs with
  | ([], _) => none
  | (ds, rest) => some (digitsToNat ds, ds.length, rest)

/-- Consume one expected literal character. -/
def expectChar (c : Char) : List Char → Option (List Char)
  | [] => none
  | x :: xs => if x = c then some xs else none

/-- `True` for the leap years of the proleptic Gregorian calendar `datetime`
uses. -/
def isLeapYear (y : Nat) : Bool :=
  y % 4 == 0 && (y % 100 != 0 || y % 400 == 0)

/-- Days in a month, as validated by the `datetime.datetime` constructor. -/
def daysInMonth (y m : Nat) : Nat :=
  if m = 2 then (if isLeapYear y then 29 else 28)
  else if m = 4 ∨ m = 6 ∨ m = 9 ∨ m = 11 then 30
  else 31

/-- `datetime.datetime.strptime(s, "%Y-%m-%dT%H:%M:%S.%fZ")`: `%Y` is exactly
four digits, `%m %d %H %M %S` are one or two digits, `%f` is one to six
digits padded on the right to microseconds, the literals `- - T : : . Z`
must appear exactly, the whole string must be consumed, and the field
ranges of the `datetime` constructor must hold.  `none` models the
`ValueError` (or, for a `None` argument, `TypeError`) the call raises. -/
def strptimeTimestamp (s : String) : Option PyDateTime := do
  let (y, wy, cs) ← parseField 4 s.data
  if wy ≠ 4 then none else
  let cs ← expectChar '-' cs
  let (mo, _, cs) ← parseField 2 cs
  let cs ← expectChar '-' cs
  let (d, _, cs) ← parseField 2 cs
  let cs ← expectChar 'T' cs
  let (h, _, cs) ← parseField 2 cs
  let cs ← expectChar ':' cs
  let (mi, _, cs) ← parseField 2 cs
  let cs ← expectChar ':' cs
  let (se, _, cs) ← parseField 2 cs
  let cs ← expectChar '.' cs
  let (f, wf, cs) ← parseField 6 cs
  let cs ← expectChar 'Z' cs
  if cs = [] ∧ 1 ≤ y ∧ 1 ≤ mo ∧ mo ≤ 12 ∧ 1 ≤ d ∧ d ≤ daysInMonth y mo ∧
      h ≤ 23 ∧ mi ≤ 59 ∧ se ≤ 59 then
    some ⟨y, mo, d, h, mi, se, f * 10 ^ (6 - wf)⟩
  else none

/-- Zero-padded two-digit rendering (`%d %H %M %S`). -/
def pad2 (n : Nat) : String :=
  if n < 10 then "0" ++ renderNat n else renderNat n

/-- Zero-padded four-digit rendering (`%Y`). -/
def pad4 (n : Nat) : String :=
  if n < 10 then "000" ++ renderNat n
  else if n < 100 then "00" ++ renderNat n
  else if n < 1000 then "0" ++ renderNat n
  else renderNat n

/-- `%b`: abbreviated month name (C locale). -/
def monthAbbrev (m : Nat) : String :=
  (["Jan", "Feb", "Mar", "Apr", "May", "Jun", "Jul", "Aug", "Sep", "Oct",
    "Nov", "Dec"].get? (m - 1)).getD ""

/-- `'{:%d/%b/%Y:%H:%M:%S +0000}'.format(timestamp_obj)`. -/
def formatApacheTime (t : PyDateTime) : String :=
  pad2 t.day ++ "/" ++ monthAbbrev t.month ++ "/" ++ pad4 t.year ++ ":" ++
  pad2 t.hour ++ ":" ++ pad2 t.minute ++ ":" ++ pad2 t.second ++ " +0000"

/-! ### The JSON half (`flask.json.dumps(row)`) -/

/-- `'{}'.format(v)` on an optional string: Python renders `None` as "None". -/
def pyStrOpt : Option String → String
  | none => "None"
  | some s => s

/-- `'{}'.format(v)` on a coerced field value. -/
def pyStrValue : Value → String
  | Value.int i => renderInt i
  | Value.str s => s
  | Value.null => "None"

/-- `row['user_agent'] or '-'`: `None` and the empty string are falsy. -/
def userAgentOrDash : Option String → String
  | none => "-"
  | some s => if s = "" then "-" else s

/-- Lowercase hex digit character. -/
def hexDigitChar (n : Nat) : Char :=
  if n < 10 then Char.ofNat (48 + n) else Char.ofNat (87 + n)

/-- Four-digit hex rendering for a `\uXXXX` escape. -/
def hex4Chars (n : Nat) : List Char :=
  [hexDigitChar (n / 4096 % 16), hexDigitChar (n / 256 % 16),
   hexDigitChar (n / 16 % 16), hexDigitChar (n % 16)]

/-- `json.dumps` escaping of one character (default `ensure_ascii=True`):
the two-character escapes for quote, backslash and the common control
characters, `\uXXXX` for other control or non-ASCII characters, with a
surrogate pair above the BMP. -/
def escChar (c : Char) : List Char :=
  if c = '"' then ['\\', '"']
  else if c = '\\' then ['\\', '\\']
  else if c = '\n' then ['\\', 'n']
  else if c = '\r' then ['\\', 'r']
  else if c = '\t' then ['\\', 't']
  else if c.toNat = 8 then ['\\', 'b']
  else if c.toNat = 12 then ['\\', 'f']
  else if c.toNat < 32 ∨ 126 < c.toNat then
    if c.toNat < 65536 then '\\' :: 'u' :: hex4Chars c.toNat
    else
      ('\\' :: 'u' :: hex4Chars (55296 + (c.toNat - 65536) / 1024)) ++
      ('\\' :: 'u' :: hex4Chars (56320 + (c.toNat - 65536) % 1024))
  else [c]

/-- `json.dumps` body of a string (without the surrounding quotes). -/
def jsonEscape (s : String) : String :=
  String.mk (s.data.foldr (fun c acc => escChar c ++ acc) [])

/-- A JSON string literal. -/
def jsonQuote (s : String) : String := "\"" ++ jsonEscape s ++ "\""

/-- `json.dumps` of one field value. -/
def jsonRenderValue : Value → String
  | Value.int i => renderInt i
  | Value.str s => jsonQuote s
  | Value.null => "null"

/-- `json.dumps` of an optional string (`None` → `null`). -/
def jsonRenderOpt : Option String → String
  | none => "null"
  | some s => jsonQuote s

/-- The serialized key/value pairs of the row, each value already rendered to
its JSON text.  Keys are in sorted order (`flask.json.dumps` defaults to
`sort_keys=True`); the order affects no claim. -/
def serializeRow (r : Row) : List (String × String) :=
  [("backend", jsonRenderOpt r.backend),
   ("backend_processing_time", jsonRenderOpt r.backend_processing_time),
   ("backend_status_code", jsonRenderValue r.backend_status_code),
   ("client_ip", jsonQuote r.client_ip),
   ("client_port", jsonQuote r.client_port),
   ("elb", jsonRenderOpt r.elb),
   ("elb_status_code", jsonRenderValue r.elb_status_code),
   ("http_method", jsonQuote r.http_method),
   ("http_version", jsonQuote r.http_version),
   ("received_bytes", jsonRenderValue r.received_bytes),
   ("request_processing_time", jsonRenderOpt r.request_processing_time),
   ("request_uri", jsonQuote r.request_uri),
   ("response_processing_time", jsonRenderOpt r.response_processing_time),
   ("sent_bytes", jsonRenderValue r.sent_bytes),
   ("ssl_cipher", jsonRenderOpt r.ssl_cipher),
   ("ssl_protocol", jsonRenderOpt r.ssl_protocol),
   ("timestamp", jsonRenderOpt r.timestamp),
   ("user_agent", jsonRenderOpt r.user_agent)]

/-- Join strings with a separator. -/
def joinSep (sep : String) : List String → String
  | [] => ""
  | [x] => x
  | x :: xs => x ++ sep ++ joinSep sep xs

/-- `json.dumps(row)`: the serialized pairs in an object literal. -/
def jsonDumps (r : Row) : String :=
  "\x7b" ++
  joinSep ", " ((serializeRow r).map (fun p => "\"" ++ p.1 ++ "\": " ++ p.2)) ++
  "\x7d"

/-! ### Re-parsing (`json.loads`) of a rendered value -/

/-- The numeric value of a hex digit character. -/
def hexVal (c : Char) : Option Nat :=
  if '0' ≤ c ∧ c ≤ '9' then some (c.toNat - 48)
  else if 'a' ≤ c ∧ c ≤ 'f' then some (c.toNat - 87)
  else if 'A' ≤ c ∧ c ≤ 'F' then some (c.toNat - 55)
  else none

/-- The value of a four-hex-digit escape. -/
def hex4Val (a b c d : Char) : Option Nat := do
  let va ← hexVal a
  let vb ← hexVal b
  let vc ← hexVal c
  let vd ← hexVal d
  some (va * 4096 + vb * 256 + vc * 16 + vd)

/-- Parse the body of a JSON string literal after its opening quote: the
decoded characters and the input after the closing quote. -/
def parseJsonString : List Char → Option (List Char × List Char)
  | [] => none
  | '"' :: rest => some ([], rest)
  | '\\' :: esc =>
    match esc with
    | '"' :: r => (parseJsonString r).map (fun p => ('"' :: p.1, p.2))
    | '\\' :: r => (parseJsonString r).map (fun p => ('\\' :: p.1, p.2))
    | '/' :: r => (parseJsonString r).map (fun p => ('/' :: p.1, p.2))
    | 'n' :: r => (parseJsonString r).map (fun p => ('\n' :: p.1, p.2))
    | 'r' :: r => (parseJsonString r).map (fun p => ('\r' :: p.1, p.2))
    | 't' :: r => (parseJsonString r).map (fun p => ('\t' :: p.1, p.2))
    | 'b' :: r => (parseJsonString r).map (fun p => (Char.ofNat 8 :: p.1, p.2))
    | 'f' :: r => (parseJsonString r).map (fun p => (Char.ofNat 12 :: p.1, p.2))
    | 'u' :: a :: b :: c :: d :: r =>
      match hex4Val a b c d with
      | none => none
      | some h =>
        if h < 55296 ∨ 57343 < h then
          (parseJsonString r).map (fun p => (Char.ofNat h :: p.1, p.2))
        else if h < 56320 then
          match r with
          | '\\' :: 'u' :: a2 :: b2 :: c2 :: d2 :: r2 =>
            match hex4Val a2 b2 c2 d2 with
            | none => none
            | some l =>
              if 56320 ≤ l ∧ l ≤ 57343 then
                (parseJsonString r2).map
                  (fun p => (Char.ofNat (65536 + (h - 55296) * 1024 + (l - 56320)) :: p.1, p.2))
              else none
          | _ => none
        else none
    | _ => none
  | c :: rest => (parseJsonString rest).map (fun p => (c :: p.1, p.2))

/-- Parse a JSON non-negative integer literal: a non-empty run of digits with
no redundant leading zero. -/
def parseJsonNat : List Char → Option Nat
  | [] => none
  | c :: rest =>
    if (c :: rest).all Char.isDigit then
      if c = '0' ∧ rest ≠ [] then none
      else some (digitsToNat (c :: rest))
    else none

/-- `json.loads` on the rendered text of one field value (string literal,
integer, or `null`). -/
def jsonParseValueChars : List Char → Option Value
  | [] => none
  | c :: rest =>
    if c = '-' then (parseJsonNat rest).map (fun (n : Nat) => Value.int (-(n : Int)))
    else if c = 'n' then
      (if c :: rest = ['n', 'u', 'l', 'l'] then some Value.null else none)
    else if c = '"' then
      (parseJsonString rest).bind
        (fun p => if p.2 = [] then some (Value.str (String.mk p.1)) else none)
    else (parseJsonNat (c :: rest)).map (fun (n : Nat) => Value.int ((n : Int)))

def jsonParseValue (s : String) : Option Value :=
  jsonParseValueChars s.data

/-- Re-parse one field out of the serialized key/value half. -/
def reparseField (l : List (String × String)) (k : String) : Option Value :=
  (l.lookup k).bind jsonParseValue

/-! ### Rendering one output line, the row loop, and batching -/

/-- `apache_combined_log(row)` (`src/app.py` lines 105-114): `strptime` the
timestamp — `none` models the uncaught exception when the timestamp is
absent (`None`) or does not match the format — then format `log_format`. -/
def apache_combined_log (r : Row) : Option String :=
  match r.timestamp with
  | none => none
  | some ts =>
    match strptimeTimestamp ts with
    | none => none
    | some t =>
      some (r.client_ip ++ " " ++ pyStrOpt r.elb ++ " - [" ++
        formatApacheTime t ++ "] \"" ++
        r.http_method ++ " " ++ r.request_uri ++ " " ++ r.http_version ++ "\" " ++
        pyStrValue r.elb_status_code ++ " " ++ pyStrValue r.sent_bytes ++
        " \"\" \"" ++ userAgentOrDash r.user_agent ++ "\" ")

/-- `apache_combined_log(row) + json.dumps(row)` — one output line. -/
def renderRow (row : Row) : Option String :=
  (apache_combined_log row).map (fun s => s ++ jsonDumps row)

/-- One iteration of the row loop of `download_and_process` up to the output
line: `none` = an uncaught exception aborts the file; `some none` = the row
is dropped by the `ONLY_ERRORS` filter (`continue`); `some (some line)` =
the rendered line.  Note the filter comparison `row['elb_status_code'] < 500`
raises `TypeError` when the field is not an `int`. -/
def processRow (onlyErrors : Bool) (r : RawRow) : Option (Option String) :=
  match parseRow r with
  | none => none
  | some row =>
    if onlyErrors then
      match row.elb_status_code with
      | Value.int code =>
        if code < 500 then some none else (renderRow row).map some
      | _ => none
    else (renderRow row).map some

/-- The mutable state of the batching loop: the batches already uploaded, the
current `output` buffer, and the running `size` accumulator. -/
structure BatchState where
  batches : List (List String)
  output : List String
  size : Nat
deriving DecidableEq, Repr

/-- The batching tail of one loop iteration (`src/app.py` lines 152-157):
append the line, add `len(...)` to `size`, and flush to loggly exactly when
`size > LOGGLY_MAX_SIZE`, resetting buffer and accumulator.  An upload is
modelled as moving the buffer onto `batches`. -/
def appendLine (maxSize : Nat) (st : BatchState) (line : String) : BatchState :=
  let output := st.output ++ [line]
  let size := st.size + line.length
  if maxSize < size then
    { batches := st.batches ++ [output], output := [], size := 0 }
  else
    { batches := st.batches, output := output, size := size }

/-- The row loop of `download_and_process`: `none` when some row raises. -/
def procRows (onlyErrors : Bool) (maxSize : Nat) : List RawRow → BatchState → Option BatchState
  | [], st => some st
  | r :: rs, st =>
    match processRow onlyErrors r with
    | none => none
    | some none => procRows onlyErrors maxSize rs st
    | some (some line) => procRows onlyErrors maxSize rs (appendLine maxSize st line)

/-- The end-of-file step: `if output: upload_to_loggly(output)`. -/
def finishFile (st : BatchState) : List (List String) :=
  st.batches ++ (if st.output.isEmpty then [] else [st.output])

/-- `download_and_process` over the parsed rows of the fetched file: the list
of uploaded batches in order, or `none` when a row aborts the file. -/
def download_and_process (onlyErrors : Bool) (maxSize : Nat) (rows : List RawRow) :
    Option (List (List String)) :=
  match procRows onlyErrors maxSize rows { batches := [], output := [], size := 0 } with
  | none => none
  | some st => some (finishFile st)

/-! ### `upload_to_loggly` -/

/-- The part of an HTTP response `upload_to_loggly` inspects. -/
structure HttpResponse where
  status_code : Nat
  text : String
deriving DecidableEq, Repr

/-- `upload_to_loggly(events)` (`src/app.py` lines 117-130) given the response
of the POST: `raise Exception('Loggly responded %s' % response.text)` unless
`response.status_code == requests.codes.ok`, i.e. unless the status is
exactly 200. -/
def upload_to_loggly (events : List String) (response : HttpResponse) :
    Except String Unit :=
  let _ := events
  if response.status_code ≠ 200 then
    Except.error ("Loggly responded " ++ response.text)
  else Except.ok ()

/-! ### Concrete sample data -/

/-- A well-formed ELB access-log row (concrete test data for witnesses). -/
def exampleRow : RawRow :=
  { timestamp := some "2015-05-13T23:39:43.945958Z"
    elb := some "my-loadbalancer"
    client := some "10.0.0.1:4321"
    backend := some "10.0.0.2:80"
    request_processing_time := some "0.000073"
    backend_processing_time := some "0.001048"
    response_processing_time := some "0.000057"
    elb_status_code := some "200"
    backend_status_code := some "200"
    received_bytes := some "0"
    sent_bytes := some "29"
    request := some "GET /x HTTP/1.1"
    user_agent := some "curl/7.38.0"
    ssl_cipher := none
    ssl_protocol := none }

/-- The row `exampleRow` parses to, after splitting and coercion. -/
def exampleParsedRow : Row :=
  { timestamp := some "2015-05-13T23:39:43.945958Z"
    elb := some "my-loadbalancer"
    backend := some "10.0.0.2:80"
    request_processing_time := some "0.000073"
    backend_processing_time := some "0.001048"
    response_processing_time := some "0.000057"
    elb_status_code := Value.int 200
    backend_status_code := Value.int 200
    received_bytes := Value.int 0
    sent_bytes := Value.int 29
    user_agent := some "curl/7.38.0"
    ssl_cipher := none
    ssl_protocol := none
    client_ip := "10.0.0.1"
    client_port := "4321"
    http_method := "GET"
    request_uri := "/x"
    http_version := "HTTP/1.1" }

/-- Queue invariant: every task the intake enqueues and every task the worker
re-enqueues has `tries ≤ MAX_TRIES`, so every task ever dequeued satisfies it. -/
theorem requeued_tries_le (now : Nat) (t : Task) (ok : Bool) (t' : Task)
    (h : (workerStep now t ok).requeued = some t') : t'.tries ≤ MAX_TRIES := by
  by_cases h1 : t.not_before ≤ now
  · by_cases h2 : ok = true
    · simp [workerStep, h1, h2] at h
    · by_cases h3 : t.tries + 1 ≤ MAX_TRIES
      · simp [workerStep, h1, h2, h3] at h
        subst h
        exact h3
      · simp [workerStep, h1, h2, h3] at h
  · by_cases h4 : t.tries ≤ MAX_TRIES
    · simp [workerStep, h1, h4] at h
      subst h
      exact h4
    · simp [workerStep, h1, h4] at h

theorem enqueueTask_tries_le (url : String) (now : Nat) :
    (enqueueTask url now).tries ≤ MAX_TRIES := by
  simp [enqueueTask, MAX_TRIES]

/-- C1: for every failed execution attempt with attempt count `a` in
`[1, MAX_TRIES]` (the counter after the increment), the re-enqueued task
keeps its url and has `not_before = now + 2^a` — exponential backoff, base
one second, doubling per attempt. -/
theorem backoff_delay_exact (now : Nat) (t : Task) (a : Nat)
    (hdue : t.not_before ≤ now) (ha : t.tries + 1 = a) (h1 : 1 ≤ a)
    (hmax : a ≤ MAX_TRIES) :
    (workerStep now t false).requeued =
      some { url := t.url, not_before := now + 2 ^ a, tries := a } := by
  subst ha
  simp [workerStep, hdue, hmax]

/-- Witness for C1: first failure at time 100 re-enqueues with
`not_before = 102 = 100 + 2^1`. -/
theorem backoff_delay_exact_witness :
    (workerStep 100 { url := "u", not_before := 100, tries := 0 } false).requeued =
      some { url := "u", not_before := 102, tries := 1 } :=
  backoff_delay_exact 100 { url := "u", not_before := 100, tries := 0 } 1
    (by decide) rfl (by decide) (by decide)

/-- C2: for every dequeued task (all of which satisfy the queue invariant
`tries ≤ MAX_TRIES`), the task is abandoned iff the attempt was executed,
failed, and the incremented counter exceeds `MAX_TRIES`; a successful
execution never abandons and discards the task without re-enqueueing it. -/
theorem abandoned_iff (now : Nat) (t : Task) (ok : Bool)
    (hq : t.tries ≤ MAX_TRIES) :
    ((workerStep now t ok).abandoned = true ↔
      t.not_before ≤ now ∧ ok = false ∧ MAX_TRIES < t.tries + 1) ∧
    ((workerStep now t true).abandoned = false ∧
      (t.not_before ≤ now →
        (workerStep now t true).requeued = none ∧
        (workerStep now t true).succeeded = true)) := by
  refine ⟨⟨?_, ?_⟩, ?_, ?_⟩
  · intro h
    by_cases hdue : t.not_before ≤ now
    · by_cases hok : ok = true
      · simp [workerStep, hdue, hok] at h
      · by_cases hm : t.tries + 1 ≤ MAX_TRIES
        · simp [workerStep, hdue, hok, hm] at h
        · exact ⟨hdue, by simpa using hok, by omega⟩
    · simp [workerStep, hdue, hq] at h
  · rintro ⟨hdue, hok, hm⟩
    subst hok
    have hgt : ¬ (t.tries + 1 ≤ MAX_TRIES) := by omega
    simp [workerStep, hdue, hgt]
  · by_cases hdue : t.not_before ≤ now
    · simp [workerStep, hdue]
    · simp [workerStep, hdue, hq]
  · intro hdue
    simp [workerStep, hdue]

/-- Witness for C2: a 16th failure (counter 15 → 16 > 15) abandons the task,
and a success at the same counter does not. -/
theorem abandoned_iff_witness :
    (workerStep 0 { url := "u", not_before := 0, tries := 15 } false).abandoned = true ∧
    (workerStep 0 { url := "u", not_before := 0, tries := 15 } true).abandoned = false :=
  ⟨(abandoned_iff 0 { url := "u", not_before := 0, tries := 15 } false
      (by decide)).1.mpr ⟨by decide, rfl, by decide⟩,
   (abandoned_iff 0 { url := "u", not_before := 0, tries := 15 } true
      (by decide)).2.1⟩

/-- Counterexample to C3 as stated: an iteration whose pipeline execution
succeeds hits the `continue` and does not sleep at all, so the worker does
not pause 10 seconds regardless of outcome. -/
theorem sleep_skipped_on_success_cex :
    (workerStep 5 { url := "u", not_before := 0, tries := 0 } true).executed = true ∧
    (workerStep 5 { url := "u", not_before := 0, tries := 0 } true).succeeded = true ∧
    (workerStep 5 { url := "u", not_before := 0, tries := 0 } true).sleepSeconds ≠ 10 := by
  decide

/-- C3 as amended: the worker pauses the fixed 10 seconds after every failed
or skipped iteration, but a successful execution `continue`s straight to the
next task with no pause. -/
theorem sleep_iff_not_success (now : Nat) (t : Task) (ok : Bool) :
    (workerStep now t ok).sleepSeconds =
      (if (workerStep now t ok).succeeded then 0 else 10) := by
  simp only [workerStep]
  split_ifs <;> simp_all

/-- C8: a dequeued task whose `not_before` is still in the future is not
executed and is re-enqueued entirely unchanged (url, `not_before` and
`tries` all preserved). -/
theorem future_task_requeued_unchanged (now : Nat) (t : Task) (ok : Bool)
    (hfuture : now < t.not_before) (hq : t.tries ≤ MAX_TRIES) :
    (workerStep now t ok).requeued = some t ∧
    (workerStep now t ok).executed = false := by
  have hd : ¬ (t.not_before ≤ now) := by omega
  simp [workerStep, hd, hq]

/-- Witness for C8: a task due at time 7 dequeued at time 0 is re-enqueued
as-is. -/
theorem future_task_requeued_unchanged_witness :
    (workerStep 0 { url := "u", not_before := 7, tries := 3 } true).requeued =
      some { url := "u", not_before := 7, tries := 3 } ∧
    (workerStep 0 { url := "u", not_before := 7, tries := 3 } true).executed = false :=
  future_task_requeued_unchanged 0 { url := "u", not_before := 7, tries := 3 } true
    (by decide) (by decide)

/-- C4: the batch is flushed iff the accumulated size strictly exceeds the
ceiling after appending the current line; a flush empties the buffer and
zeroes the accumulator; and when the row loop finishes, a non-empty buffer
is flushed unconditionally (and an empty one is not). -/
theorem batch_flush_iff (maxSize : Nat) (st : BatchState) (line : String) :
    (maxSize < st.size + line.length →
      appendLine maxSize st line =
        { batches := st.batches ++ [st.output ++ [line]], output := [], size := 0 }) ∧
    (st.size + line.length ≤ maxSize →
      appendLine maxSize st line =
        { batches := st.batches, output := st.output ++ [line],
          size := st.size + line.length }) ∧
    (st.output ≠ [] → finishFile st = st.batches ++ [st.output]) ∧
    (st.output = [] → finishFile st = st.batches) ∧
    (∀ (onlyErrors : Bool) (rows : List RawRow) (st' : BatchState),
      procRows onlyErrors maxSize rows { batches := [], output := [], size := 0 } =
        some st' →
      download_and_process onlyErrors maxSize rows = some (finishFile st')) := by
  refine ⟨?_, ?_, ?_, ?_, ?_⟩
  · intro h
    simp [appendLine, h]
  · intro h
    have h' : ¬ maxSize < st.size + line.length := by omega
    simp [appendLine, h']
  · intro h
    cases ho : st.output with
    | nil => exact absurd ho h
    | cons x xs => simp [finishFile, ho]
  · intro h
    simp [finishFile, h]
  · intro b rows st' h
    simp [download_and_process, h]

/-- Witness for C4: a flush at ceiling 5 with accumulated size 2 and a
4-character line; a non-flushing append; the unconditional and skipped
end-of-file flushes; and the empty file. -/
theorem batch_flush_iff_witness :
    appendLine 5 { batches := [], output := ["ab"], size := 2 } "abcd" =
      { batches := [["ab", "abcd"]], output := [], size := 0 } ∧
    appendLine 5 { batches := [], output := ["ab"], size := 2 } "a" =
      { batches := [], output := ["ab", "a"], size := 3 } ∧
    finishFile { batches := [["x"]], output := ["y"], size := 1 } = [["x"], ["y"]] ∧
    finishFile { batches := [["x"]], output := [], size := 0 } = [["x"]] ∧
    download_and_process false 5 [] = some [] :=
  ⟨(batch_flush_iff 5 { batches := [], output := ["ab"], size := 2 } "abcd").1
      (by decide),
   (batch_flush_iff 5 { batches := [], output := ["ab"], size := 2 } "a").2.1
      (by decide),
   (batch_flush_iff 5 { batches := [["x"]], output := ["y"], size := 1 } "").2.2.1
      (by decide),
   (batch_flush_iff 5 { batches := [["x"]], output := [], size := 0 } "").2.2.2.1 rfl,
   (batch_flush_iff 5 { batches := [], output := [], size := 0 } "").2.2.2.2
      false [] { batches := [], output := [], size := 0 } rfl⟩

/-- Counterexample to C5 as stated: HTTP 201 is a success status, yet
`upload_to_loggly` raises on it (only `requests.codes.ok`, 200 exactly,
counts as success). -/
theorem upload_raises_on_201_cex :
    upload_to_loggly ["e"] { status_code := 201, text := "Created" } =
      Except.error "Loggly responded Created" ∧
    200 ≤ 201 ∧ 201 ≤ 299 :=
  ⟨rfl, by decide, by decide⟩

/-- C5 as amended: the upload raises — carrying the raw response body — iff
the response status is not exactly 200; a 200 response is the only
successful delivery. -/
theorem upload_error_iff_not_200 (events : List String) (response : HttpResponse) :
    (upload_to_loggly events response =
        Except.error ("Loggly responded " ++ response.text) ↔
      response.status_code ≠ 200) ∧
    (response.status_code = 200 → upload_to_loggly events response = Except.ok ()) := by
  refine ⟨⟨?_, ?_⟩, ?_⟩
  · intro h hc
    simp [upload_to_loggly, hc] at h
  · intro h
    simp [upload_to_loggly, h]
  · intro h
    simp [upload_to_loggly, h]

/-- Witness for C5 (amended): a 200 response is accepted. -/
theorem upload_error_iff_not_200_witness :
    upload_to_loggly [] { status_code := 200, text := "ok" } = Except.ok () :=
  (upload_error_iff_not_200 [] { status_code := 200, text := "ok" }).2 rfl

/-- Counterexample to C6 as stated: a row whose `elb_status_code` does not
coerce to an integer aborts the whole file when the errors-only filter is
enabled — the comparison `row['elb_status_code'] < 500` raises `TypeError`
on the kept string. -/
theorem coercion_failure_filter_aborts_cex :
    pyInt? "abc" = none ∧
    processRow true { exampleRow with elb_status_code := some "abc" } = none := by
  decide

/-- C6 as amended: a failed status/byte coercion keeps the original value
(string, or None for a missing field) and never aborts by itself — with the
errors-only filter disabled the row still renders; but with the filter
enabled, a row whose `elb_status_code` is not an integer aborts the file. -/
theorem coercion_best_effort :
    (∀ s : String, pyInt? s = none → coerceField (some s) = Value.str s) ∧
    (coerceField none = Value.null) ∧
    (∀ (r : RawRow) (row : Row), parseRow r = some row →
      processRow false r = (renderRow row).map some) ∧
    (∀ (r : RawRow) (row : Row) (s : String), parseRow r = some row →
      row.elb_status_code = Value.str s → processRow true r = none) ∧
    (∀ (r : RawRow) (row : Row), parseRow r = some row →
      row.elb_status_code = Value.null → processRow true r = none) := by
  refine ⟨?_, rfl, ?_, ?_, ?_⟩
  · intro s h
    simp [coerceField, h]
  · intro r row h
    simp [processRow, h]
  · intro r row s h hs
    simp [processRow, h, hs]
  · intro r row h hs
    simp [processRow, h, hs]

/-- Witness for C6 (amended): the string is kept on coercion failure, and the
same row aborts the file once the filter is on. -/
theorem coercion_best_effort_witness :
    coerceField (some "abc") = Value.str "abc" ∧
    processRow true { exampleRow with elb_status_code := some "oops" } = none :=
  ⟨coercion_best_effort.1 "abc" (by decide),
   coercion_best_effort.2.2.2.1 { exampleRow with elb_status_code := some "oops" }
     { exampleParsedRow with elb_status_code := Value.str "oops" } "oops"
     (by decide) rfl⟩

/-- Counterexample to C7 as stated: the code splits the client at every colon
and requires exactly two parts, so a client with two colons — which "split
at its last colon" would handle — raises and aborts the file instead. -/
theorem client_split_not_last_colon_cex :
    splitClient "a:b:c" = none ∧
    splitAtLastColon "a:b:c" = some ("a:b", "c") ∧
    parseRow { exampleRow with client := some "a:b:c" } = none := by
  decide

/-- C7 as amended: the client field is split on colons and must yield exactly
two parts (an absent client or any colon count other than one raises,
aborting the file); the request field is split at single spaces into exactly
three parts; and the scenario row parses to IP 10.0.0.1, port 4321, method
GET, URI /x, version HTTP/1.1. -/
theorem compound_split_amended :
    (∀ r : RawRow, r.client = none → parseRow r = none) ∧
    (∀ (r : RawRow) (c : String), r.client = some c →
      (pySplit ':' c).length ≠ 2 → parseRow r = none) ∧
    (∀ (r : RawRow) (req : String), r.request = some req →
      (pySplit ' ' req).length ≠ 3 → parseRow r = none) ∧
    (∀ r : RawRow, r.client = some "10.0.0.1:4321" →
      r.request = some "GET /x HTTP/1.1" →
      ∃ row : Row, parseRow r = some row ∧ row.client_ip = "10.0.0.1" ∧
        row.client_port = "4321" ∧ row.http_method = "GET" ∧
        row.request_uri = "/x" ∧ row.http_version = "HTTP/1.1") := by
  refine ⟨?_, ?_, ?_, ?_⟩
  · intro r h
    simp [parseRow, h]
  · intro r c hc hlen
    have hs : splitClient c = none := by
      unfold splitClient
      cases hl : pySplit ':' c with
      | nil => rfl
      | cons a t =>
        cases t with
        | nil => rfl
        | cons b t2 =>
          cases t2 with
          | nil => exact absurd (by simp [hl]) hlen
          | cons d t3 => rfl
    simp [parseRow, hc, hs]
  · intro r req hreq hlen
    have hs : splitRequest req = none := by
      unfold splitRequest
      cases hl : pySplit ' ' req with
      | nil => rfl
      | cons a t =>
        cases t with
        | nil => rfl
        | cons b t2 =>
          cases t2 with
          | nil => rfl
          | cons d t3 =>
            cases t3 with
            | nil => exact absurd (by simp [hl]) hlen
            | cons e t4 => rfl
    cases hcl : r.client with
    | none => simp [parseRow, hcl]
    | some c =>
      cases hsc : splitClient c with
      | none => simp [parseRow, hcl, hsc]
      | some p => simp [parseRow, hcl, hsc, hreq, hs]
  · intro r hc hr
    have h1 : splitClient "10.0.0.1:4321" = some ("10.0.0.1", "4321") := by decide
    have h2 : splitRequest "GET /x HTTP/1.1" = some ("GET", "/x", "HTTP/1.1") := by
      decide
    refine ⟨{ timestamp := r.timestamp, elb := r.elb, backend := r.backend
              request_processing_time := r.request_processing_time
              backend_processing_time := r.backend_processing_time
              response_processing_time := r.response_processing_time
              elb_status_code := coerceField r.elb_status_code
              backend_status_code := coerceField r.backend_status_code
              received_bytes := coerceField r.received_bytes
              sent_bytes := coerceField r.sent_bytes
              user_agent := r.user_agent, ssl_cipher := r.ssl_cipher
              ssl_protocol := r.ssl_protocol, client_ip := "10.0.0.1"
              client_port := "4321", http_method := "GET", request_uri := "/x"
              http_version := "HTTP/1.1" }, ?_, rfl, rfl, rfl, rfl, rfl⟩
    simp [parseRow, hc, hr, h1, h2]

/-- Witness for C7 (amended): an absent client field aborts the file. -/
theorem compound_split_amended_witness :
    parseRow { exampleRow with client := none } = none :=
  compound_split_amended.1 { exampleRow with client := none } rfl

theorem renderNatAux_zero (fuel : Nat) : renderNatAux fuel 0 = [] := by
  cases fuel <;> rfl

theorem digitChar_isDigit {d : Nat} (h : d < 10) : (digitChar d).isDigit = true := by
  interval_cases d <;> decide

theorem digitChar_toNat {d : Nat} (h : d < 10) : (digitChar d).toNat = 48 + d := by
  interval_cases d <;> decide

theorem digitChar_ne_zero_char {d : Nat} (h1 : 1 ≤ d) (h2 : d < 10) :
    digitChar d ≠ '0' := by
  interval_cases d <;> decide

theorem renderNatAux_all_digits : ∀ fuel n, (renderNatAux fuel n).all Char.isDigit = true
  | 0, _ => rfl
  | fuel + 1, n => by
    by_cases h : n = 0
    · simp [renderNatAux, h]
    · simp only [renderNatAux, h, if_false, List.all_append, Bool.and_eq_true]
      refine ⟨renderNatAux_all_digits fuel (n / 10), ?_⟩
      simp [digitChar_isDigit (Nat.mod_lt n (by norm_num))]

theorem renderNatAux_ne_nil (fuel n : Nat) (h1 : 1 ≤ n) (h2 : n ≤ fuel) :
    renderNatAux fuel n ≠ [] := by
  cases fuel with
  | zero => omega
  | succ f =>
    have hn : n ≠ 0 := by omega
    simp [renderNatAux, hn]

theorem renderNatAux_small {fuel n : Nat} (h1 : 1 ≤ n) (h2 : n < 10) (h3 : n ≤ fuel) :
    renderNatAux fuel n = [digitChar n] := by
  cases fuel with
  | zero => omega
  | succ f =>
    have hn : n ≠ 0 := by omega
    simp [renderNatAux, hn, Nat.div_eq_of_lt h2, renderNatAux_zero,
      Nat.mod_eq_of_lt h2]

theorem renderNatAux_foldl : ∀ fuel n, n ≤ fuel → ∀ a,
    (renderNatAux fuel n).foldl (fun a c => a * 10 + (c.toNat - 48)) a =
      a * 10 ^ (renderNatAux fuel n).length + n
  | 0, n, h, a => by
    have hn : n = 0 := by omega
    subst hn
    simp [renderNatAux]
  | fuel + 1, n, h, a => by
    by_cases hn : n = 0
    · subst hn
      simp [renderNatAux]
    · have hlt : n / 10 < n := Nat.div_lt_self (Nat.pos_of_ne_zero hn) (by norm_num)
      have hdiv : n / 10 ≤ fuel := by omega
      simp only [renderNatAux, hn, if_false]
      rw [List.foldl_append, renderNatAux_foldl fuel (n / 10) hdiv a]
      simp only [List.foldl_cons, List.foldl_nil, List.length_append,
        List.length_cons, List.length_nil]
      rw [digitChar_toNat (Nat.mod_lt n (by norm_num))]
      have hm : 48 + n % 10 - 48 = n % 10 := by omega
      rw [hm, pow_succ]
      have hexp : (a * 10 ^ (renderNatAux fuel (n / 10)).length + n / 10) * 10 + n % 10 =
          a * (10 ^ (renderNatAux fuel (n / 10)).length * 10) + (n / 10 * 10 + n % 10) := by
        ring
      rw [hexp]
      have hdm : n / 10 * 10 + n % 10 = n := by omega
      rw [hdm]

theorem renderNatAux_head_ne_zero : ∀ fuel n c cs, 1 ≤ n → n ≤ fuel →
    renderNatAux fuel n = c :: cs → c ≠ '0'
  | 0, n, _, _, h1, h2, _ => by omega
  | fuel + 1, n, c, cs, h1, h2, heq => by
    have hn : n ≠ 0 := by omega
    simp only [renderNatAux, hn, if_false] at heq
    by_cases hlt : n < 10
    · rw [Nat.div_eq_of_lt hlt, renderNatAux_zero, List.nil_append,
        Nat.mod_eq_of_lt hlt] at heq
      injection heq with h3 h4
      subst h3
      exact digitChar_ne_zero_char h1 hlt
    · have h10 : 10 ≤ n := by omega
      have hge : 1 ≤ n / 10 := by
        have := Nat.div_le_div_right (c := 10) h10
        simpa using this
      have hlt2 : n / 10 < n := Nat.div_lt_self (by omega) (by norm_num)
      have hle : n / 10 ≤ fuel := by omega
      cases hx : renderNatAux fuel (n / 10) with
      | nil => exact absurd hx (renderNatAux_ne_nil fuel (n / 10) hge hle)
      | cons x xs =>
        rw [hx, List.cons_append] at heq
        injection heq with h3 h4
        subst h3
        exact renderNatAux_head_ne_zero fuel (n / 10) x xs hge hle hx

theorem parseJsonNat_renderNat (n : Nat) : parseJsonNat (renderNat n).data = some n := by
  by_cases hn : n = 0
  · subst hn
    decide
  · have h1 : 1 ≤ n := Nat.pos_of_ne_zero hn
    unfold renderNat
    rw [if_neg hn]
    show parseJsonNat (renderNatChars n) = some n
    unfold renderNatChars
    cases hx : renderNatAux n n with
    | nil => exact absurd hx (renderNatAux_ne_nil n n h1 le_rfl)
    | cons c cs =>
      have hall : ((c :: cs).all Char.isDigit) = true := by
        rw [← hx]
        exact renderNatAux_all_digits n n
      simp only [parseJsonNat]
      rw [if_pos hall]
      by_cases hsmall : n < 10
      · have hone : renderNatAux n n = [digitChar n] := renderNatAux_small h1 hsmall le_rfl
        rw [hone] at hx
        injection hx with h3 h4
        subst h3
        subst h4
        rw [if_neg (by simp)]
        have hone2 : digitsToNat [digitChar n] = n := by
          unfold digitsToNat
          simp only [List.foldl_cons, List.foldl_nil, zero_mul, zero_add]
          rw [digitChar_toNat hsmall]
          omega
        rw [hone2]
      · have hc0 : c ≠ '0' := renderNatAux_head_ne_zero n n c cs h1 le_rfl hx
        rw [if_neg (by simp [hc0])]
        have hfold := renderNatAux_foldl n n le_rfl 0
        rw [hx] at hfold
        simp only [zero_mul, zero_add] at hfold
        unfold digitsToNat
        rw [hfold]

theorem renderNat_data_head (n : Nat) :
    ∃ c cs, (renderNat n).data = c :: cs ∧ c.isDigit = true := by
  by_cases hn : n = 0
  · subst hn
    exact ⟨'0', [], rfl, by decide⟩
  · have h1 : 1 ≤ n := Nat.pos_of_ne_zero hn
    unfold renderNat
    rw [if_neg hn]
    cases hx : renderNatChars n with
    | nil =>
      unfold renderNatChars at hx
      exact absurd hx (renderNatAux_ne_nil n n h1 le_rfl)
    | cons c cs =>
      refine ⟨c, cs, by simp [hx], ?_⟩
      have hall := renderNatAux_all_digits n n
      unfold renderNatChars at hx
      rw [hx] at hall
      simp only [List.all_cons, Bool.and_eq_true] at hall
      exact hall.1

theorem jsonParse_renderInt (i : Int) :
    jsonParseValue (renderInt i) = some (Value.int i) := by
  by_cases hneg : i < 0
  · unfold renderInt
    rw [if_pos hneg]
    have hdata : ("-" ++ renderNat i.natAbs).data = '-' :: (renderNat i.natAbs).data := by
      rw [String.data_append]
      rfl
    unfold jsonParseValue
    rw [hdata]
    show (parseJsonNat (renderNat i.natAbs).data).map
        (fun (n : Nat) => Value.int (-(n : Int))) = some (Value.int i)
    rw [parseJsonNat_renderNat]
    show some (Value.int (-(i.natAbs : Int))) = some (Value.int i)
    have hi : -((i.natAbs : Nat) : Int) = i := by omega
    rw [hi]
  · unfold renderInt
    rw [if_neg hneg]
    obtain ⟨c, cs, hx, hd⟩ := renderNat_data_head i.natAbs
    have hc1 : c ≠ '-' := by
      intro h
      rw [h] at hd
      exact absurd hd (by decide)
    have hc2 : c ≠ 'n' := by
      intro h
      rw [h] at hd
      exact absurd hd (by decide)
    have hc3 : c ≠ '"' := by
      intro h
      rw [h] at hd
      exact absurd hd (by decide)
    unfold jsonParseValue
    rw [hx]
    simp only [jsonParseValueChars]
    rw [if_neg hc1, if_neg hc2, if_neg hc3, ← hx, parseJsonNat_renderNat]
    show some (Value.int ((i.natAbs : Nat) : Int)) = some (Value.int i)
    have hi : ((i.natAbs : Nat) : Int) = i := by omega
    rw [hi]

/-- C9: for every record whose four status/byte-count fields hold integers,
rendering the record and re-parsing each of those fields from the
serialized key/value half yields the same integer values. -/
theorem roundtrip_int_fields (row : Row) (a b c d : Int)
    (ha : row.elb_status_code = Value.int a)
    (hb : row.backend_status_code = Value.int b)
    (hc : row.received_bytes = Value.int c)
    (hd : row.sent_bytes = Value.int d) :
    reparseField (serializeRow row) "elb_status_code" = some (Value.int a) ∧
    reparseField (serializeRow row) "backend_status_code" = some (Value.int b) ∧
    reparseField (serializeRow row) "received_bytes" = some (Value.int c) ∧
    reparseField (serializeRow row) "sent_bytes" = some (Value.int d) := by
  have h1 : reparseField (serializeRow row) "elb_status_code" =
      jsonParseValue (jsonRenderValue row.elb_status_code) := rfl
  have h2 : reparseField (serializeRow row) "backend_status_code" =
      jsonParseValue (jsonRenderValue row.backend_status_code) := rfl
  have h3 : reparseField (serializeRow row) "received_bytes" =
      jsonParseValue (jsonRenderValue row.received_bytes) := rfl
  have h4 : reparseField (serializeRow row) "sent_bytes" =
      jsonParseValue (jsonRenderValue row.sent_bytes) := rfl
  refine ⟨?_, ?_, ?_, ?_⟩
  · rw [h1, ha]
    exact jsonParse_renderInt a
  · rw [h2, hb]
    exact jsonParse_renderInt b
  · rw [h3, hc]
    exact jsonParse_renderInt c
  · rw [h4, hd]
    exact jsonParse_renderInt d

/-- Witness for C9: the sample parsed row's four integer fields round-trip. -/
theorem roundtrip_int_fields_witness :
    reparseField (serializeRow exampleParsedRow) "elb_status_code" =
      some (Value.int 200) ∧
    reparseField (serializeRow exampleParsedRow) "backend_status_code" =
      some (Value.int 200) ∧
    reparseField (serializeRow exampleParsedRow) "received_bytes" =
      some (Value.int 0) ∧
    reparseField (serializeRow exampleParsedRow) "sent_bytes" =
      some (Value.int 29) :=
  roundtrip_int_fields exampleParsedRow 200 200 0 29 rfl rfl rfl rfl

/-- C10: rendering fails — and with it the whole file — exactly when the
timestamp is absent (the csv null placeholder) or does not match the
strptime format `%Y-%m-%dT%H:%M:%S.%fZ`; any row reaching the rendering
step with such a timestamp makes `download_and_process` raise. -/
theorem timestamp_loud_failure :
    (∀ row : Row, apache_combined_log row = none ↔
      (row.timestamp = none ∨
        ∃ s, row.timestamp = some s ∧ strptimeTimestamp s = none)) ∧
    (∀ (onlyErrors : Bool) (r : RawRow) (row : Row) (rows : List RawRow)
        (maxSize : Nat),
      parseRow r = some row →
      (onlyErrors = true →
        ∃ code : Int, row.elb_status_code = Value.int code ∧ 500 ≤ code) →
      apache_combined_log row = none →
      download_and_process onlyErrors maxSize (r :: rows) = none) := by
  constructor
  · intro row
    cases hts : row.timestamp with
    | none => simp [apache_combined_log, hts]
    | some s =>
      cases hp : strptimeTimestamp s with
      | none => simp [apache_combined_log, hts, hp]
      | some t => simp [apache_combined_log, hts, hp]
  · intro b r row rows maxSize hr hfilter hnone
    have hrender : renderRow row = none := by simp [renderRow, hnone]
    cases b with
    | false => simp [download_and_process, procRows, processRow, hr, hrender]
    | true =>
      obtain ⟨code, hcode, hge⟩ := hfilter rfl
      have hlt : ¬ (code < 500) := by omega
      simp [download_and_process, procRows, processRow, hr, hcode, hlt, hrender]

/-- Witness for C10: a file whose row has the null timestamp aborts. -/
theorem timestamp_loud_failure_witness :
    download_and_process false 100 [{ exampleRow with timestamp := none }] = none :=
  timestamp_loud_failure.2 false { exampleRow with timestamp := none }
    { exampleParsedRow with timestamp := none } [] 100 (by decide)
    (by intro h; exact absurd h (by decide)) rfl

end Elb2Loggly
